import Mathlib

/-!
Shallow embedding of the apnaspace auth serverless service:
the `AuthRepository` (src/api/v1/auth/repositories/auth.repository.ts),
the zod validation schemas, and the `AuthController.updateById` pipeline.
Mongoose documents are modelled as Lean structures, the MongoDB
collections as lists of documents, and the `async/await` plus try/catch
control flow as explicit `Except`/`Option` results with state passing.
JavaScript strings are modelled over their character lists;
`toLowerCase`/`trim` follow the ASCII behaviour of the originals.
-/

namespace ApnaAuth

/-- JS `s.toLowerCase()` (ASCII range). -/
def jsToLower (s : String) : String := String.mk (s.data.map Char.toLower)

/-- JS `s.trim()`: strip leading and trailing whitespace. -/
def jsTrim (s : String) : String :=
  String.mk (((s.data.dropWhile Char.isWhitespace).reverse.dropWhile
    Char.isWhitespace).reverse)

/-- `n` occurs as a contiguous run inside `h`. -/
def containsRun (n h : List Char) : Bool :=
  match h with
  | [] => n.isEmpty
  | _ :: t => n.isPrefixOf h || containsRun n t

/-- Mongo `{$regex: search, $options: "i"}` for a metacharacter-free
search pattern: a case-insensitive substring test. -/
def ciContains (hay search : String) : Bool :=
  containsRun (jsToLower search).data (jsToLower hay).data

/-- A stored document of the `AuthUser` collection.  Timestamps are
modelled as naturals; `refreshToken = none` models the field stored as
`null` (`create` writes `data.refreshToken ?? null`). -/
structure AuthDoc where
  id : String
  username : String
  email : String
  password : String
  role : String
  status : String
  isVerified : Bool
  refreshToken : Option String
  createdAt : Nat
  updatedAt : Nat
deriving DecidableEq

/-- A mongoose `.lean()` result as `normalize` receives it: a `.select`
projection may leave `password`/`refreshToken` absent (JS `undefined`).
For `password`, `none` = key absent.  For `refreshToken`, `none` = key
absent (`undefined`), `some none` = stored `null`, `some (some v)` = a
stored token value. -/
structure MongoDoc where
  id : String
  username : String
  email : String
  password : Option String
  role : String
  status : String
  isVerified : Bool
  refreshToken : Option (Option String)
  createdAt : Nat
  updatedAt : Nat
deriving DecidableEq

/-- A full stored document viewed as a mongoose result (no projection):
every field present, `refreshToken` either `null` or a value. -/
def AuthDoc.toMongo (d : AuthDoc) : MongoDoc :=
  { id := d.id, username := d.username, email := d.email
    password := some d.password, role := d.role, status := d.status
    isVerified := d.isVerified, refreshToken := some d.refreshToken
    createdAt := d.createdAt, updatedAt := d.updatedAt }

/-- The `.select("username email role status isVerified createdAt
updatedAt")` projection used by `findAll` (mongoose keeps `_id` by
default); `password` and `refreshToken` come back `undefined`. -/
def AuthDoc.project (d : AuthDoc) : MongoDoc :=
  { id := d.id, username := d.username, email := d.email
    password := none, role := d.role, status := d.status
    isVerified := d.isVerified, refreshToken := none
    createdAt := d.createdAt, updatedAt := d.updatedAt }

/-- The domain entity built by `AuthRepository.normalize`.  `password`
is `Option` because `normalize` copies `user.password` through
unchanged, and that key is `undefined` on projected documents;
`refreshToken` is never `undefined` after `normalize` (`?? null`), so
here `none` models JS `null`. -/
structure IAuthEntity where
  id : String
  username : String
  email : String
  password : Option String
  role : String
  status : String
  isVerified : Bool
  refreshToken : Option String
  createdAt : Nat
  updatedAt : Nat
deriving DecidableEq

/-- `AuthRepository.normalize`: mongoose document to domain entity.
`refreshToken := user.refreshToken ?? null` collapses `undefined` to
`null`. -/
def normalize (user : MongoDoc) : IAuthEntity :=
  { id := user.id
    username := user.username
    email := user.email
    password := user.password
    role := user.role
    status := user.status
    isVerified := user.isVerified
    refreshToken := user.refreshToken.getD none
    createdAt := user.createdAt
    updatedAt := user.updatedAt }

/-- The keys present when the entity object is serialized to JSON
(`JSON.stringify` drops keys whose value is `undefined` and keeps
`null`-valued keys), in the order `normalize` declares them. -/
def serializedKeys (e : IAuthEntity) : List String :=
  ["id", "username", "email"]
    ++ (if e.password.isSome then ["password"] else [])
    ++ ["role", "status", "isVerified", "refreshToken", "createdAt", "updatedAt"]

/-- The account-view field set named by the spec (section 6), for
comparison with `serializedKeys`. -/
def specAccountViewFields : List String :=
  ["id", "username", "email", "role", "status", "isVerified", "createdAt", "updatedAt"]

/-- `IQueryParams`: every field optional, defaulted inside `findAll`. -/
structure IQueryParams where
  page : Option Nat := none
  limit : Option Nat := none
  search : Option String := none
  sortBy : Option String := none
  sortOrder : Option String := none
deriving DecidableEq

def defaultParams : IQueryParams := {}

structure Pagination where
  page : Nat
  limit : Nat
  total : Nat
  totalPages : Nat
deriving DecidableEq

structure PaginatedData where
  data : List IAuthEntity
  pagination : Pagination
deriving DecidableEq

/-- `allowedSortFields` from `findAll`. -/
def allowedSortFields : List String := ["username", "email", "createdAt", "updatedAt"]

/-- Fall back to `"createdAt"` when `sortBy` is not an allowed field. -/
def sortFieldOf (sortBy : String) : String :=
  if allowedSortFields.contains sortBy then sortBy else "createdAt"

/-- Lexicographic order on character lists (Mongo string sort model). -/
def charListLe : List Char → List Char → Bool
  | [], _ => true
  | _ :: _, [] => false
  | a :: as, b :: bs =>
      if a.val < b.val then true
      else if b.val < a.val then false
      else charListLe as bs

/-- Sort-key comparison for `.sort({[sortField]: dir})`: ascending on
the selected field, flipped when the direction is `-1`. -/
def docCmp (field : String) (asc : Bool) (a b : AuthDoc) : Bool :=
  let le :=
    if field == "username" then charListLe a.username.data b.username.data
    else if field == "email" then charListLe a.email.data b.email.data
    else if field == "updatedAt" then decide (a.updatedAt ≤ b.updatedAt)
    else decide (a.createdAt ≤ b.createdAt)
  if asc then le
  else
    if field == "username" then charListLe b.username.data a.username.data
    else if field == "email" then charListLe b.email.data a.email.data
    else if field == "updatedAt" then decide (b.updatedAt ≤ a.updatedAt)
    else decide (b.createdAt ≤ a.createdAt)

def insertLe (le : AuthDoc → AuthDoc → Bool) (x : AuthDoc) : List AuthDoc → List AuthDoc
  | [] => [x]
  | y :: ys => if le x y then x :: y :: ys else y :: insertLe le x ys

/-- Insertion sort: the model of the Mongo `.sort(...)` stage. -/
def mongoSort (le : AuthDoc → AuthDoc → Bool) : List AuthDoc → List AuthDoc
  | [] => []
  | x :: xs => insertLe le x (mongoSort le xs)

/-- The `filter` built from `search`: an `$or` of case-insensitive
regex matches on `username` and `email`; an empty or whitespace-only
search leaves the filter empty (every document matches). -/
def searchFilter (search : String) (docs : List AuthDoc) : List AuthDoc :=
  if jsTrim search == "" then docs
  else docs.filter (fun d => ciContains d.username search || ciContains d.email search)

inductive StoreErr where
  | duplicateKey
  | unavailable
deriving DecidableEq

/-- `AuthRepository.findAll`.  The store argument is the outcome of the
awaited MongoDB calls: `.error` makes the awaited query throw, landing
in the `catch` branch (log, then an empty page echoing the defaulted
`page`/`limit` with `total`/`totalPages` 0); `.ok docs` is the
collection contents.  `Math.ceil(total / limit)` over JS numbers is
modelled as natural ceiling division `(total + limit - 1) / limit`,
which agrees with it whenever `limit ≥ 1`. -/
def findAll (st : Except StoreErr (List AuthDoc)) (params : IQueryParams) : PaginatedData :=
  match st with
  | .error _ =>
      { data := []
        pagination :=
          { page := params.page.getD 1, limit := params.limit.getD 10
            total := 0, totalPages := 0 } }
  | .ok docs =>
      let page := params.page.getD 1
      let limit := params.limit.getD 10
      let search := params.search.getD ""
      let sortBy := params.sortBy.getD "createdAt"
      let sortOrder := params.sortOrder.getD "desc"
      let skip := (page - 1) * limit
      let filtered := searchFilter search docs
      let sorted := mongoSort (docCmp (sortFieldOf sortBy) (sortOrder == "asc")) filtered
      let users := (sorted.drop skip).take limit
      let total := filtered.length
      { data := users.map (fun d => normalize d.project)
        pagination :=
          { page := page, limit := limit, total := total
            totalPages := (total + limit - 1) / limit } }

/-- `AuthRepository.findByEmail`: `findOne({ email })` with the email
exactly as given — no trimming, no lowercasing. -/
def findByEmail (docs : List AuthDoc) (email : String) : Option IAuthEntity :=
  (docs.find? (fun d => d.email == email)).map (fun d => normalize d.toMongo)

/-- `AuthRepository.findByUsername`: trims and lowercases the input,
then `findOne({ username: normalized })`. -/
def findByUsername (docs : List AuthDoc) (username : String) : Option IAuthEntity :=
  let normalized := jsToLower (jsTrim username)
  (docs.find? (fun d => d.username == normalized)).map (fun d => normalize d.toMongo)

def isHexChar (c : Char) : Bool :=
  c.isDigit || (decide ('a' ≤ c) && decide (c ≤ 'f')) || (decide ('A' ≤ c) && decide (c ≤ 'F'))

/-- `mongoose.Types.ObjectId.isValid` on a string: a 24-character hex
string, or any 12-character string (taken as 12 raw bytes). -/
def isValidObjectId (s : String) : Bool :=
  s.length == 12 || (s.length == 24 && s.data.all isHexChar)

/-- `AuthRepository.findById`: guard `ObjectId.isValid` first (returning
`null` before any query is issued), then `findById`. -/
def findById (docs : List AuthDoc) (id : String) : Option IAuthEntity :=
  if !(isValidObjectId id) then none
  else (docs.find? (fun d => d.id == id)).map (fun d => normalize d.toMongo)

/-- `AuthRepository.removeRefreshTokenById`:
`findByIdAndUpdate(id, { refreshToken: null }, { new: true })` — clears
the token on the matching document and returns the updated entity, or
`null` (collection untouched) when no document matches. -/
def removeRefreshTokenById (docs : List AuthDoc) (id : String) :
    Option IAuthEntity × List AuthDoc :=
  match docs.find? (fun d => d.id == id) with
  | none => (none, docs)
  | some d =>
      (some (normalize { d with refreshToken := none }.toMongo),
       docs.map (fun x => if x.id == id then { x with refreshToken := none } else x))

/-- The parsed `IUpdateAuth` partial-update body; `none` = field not
present in the request body. -/
structure IUpdateAuth where
  username : Option String := none
  email : Option String := none
  role : Option String := none
  status : Option String := none
  isVerified : Option Bool := none
  password : Option String := none
deriving DecidableEq

/-- `Object.keys(updates).length` for a parsed update body. -/
def IUpdateAuth.keyCount (u : IUpdateAuth) : Nat :=
  (if u.username.isSome then 1 else 0) + (if u.email.isSome then 1 else 0)
    + (if u.role.isSome then 1 else 0) + (if u.status.isSome then 1 else 0)
    + (if u.isVerified.isSome then 1 else 0) + (if u.password.isSome then 1 else 0)

/-- Applying the `{...data}` update document to a stored document:
provided fields overwrite, absent fields are kept. -/
def applyUpdate (u : IUpdateAuth) (d : AuthDoc) : AuthDoc :=
  { d with
    username := u.username.getD d.username
    email := u.email.getD d.email
    role := u.role.getD d.role
    status := u.status.getD d.status
    isVerified := u.isVerified.getD d.isVerified
    password := u.password.getD d.password }

/-- `AuthRepository.updateById`:
`findByIdAndUpdate(id, {...data}, { new: true })`. -/
def updateById (docs : List AuthDoc) (id : String) (data : IUpdateAuth) :
    Option IAuthEntity × List AuthDoc :=
  match docs.find? (fun d => d.id == id) with
  | none => (none, docs)
  | some d =>
      (some (normalize (applyUpdate data d).toMongo),
       docs.map (fun x => if x.id == id then applyUpdate data x else x))

structure SocialLinks where
  twitter : Option String
  linkedin : Option String
  github : Option String
  website : Option String
deriving DecidableEq

structure Preferences where
  emailNotifications : Bool
  marketingUpdates : Bool
  twoFactorAuth : Bool
deriving DecidableEq

/-- A stored document of the `User` (profile) collection, with the
fields `AuthRepository.create` writes. -/
structure UserDoc where
  id : String
  fullName : String
  avatar : Option String
  bio : String
  socialLinks : SocialLinks
  followers : List String
  following : List String
  preferences : Preferences
deriving DecidableEq

/-- The two collections touched by registration. -/
structure DbState where
  auths : List AuthDoc
  users : List UserDoc
deriving DecidableEq

/-- A mongoose client session: `base` is the state at
`startTransaction`, `view` the state including the session's pending
writes.  `commitTransaction` publishes `view`; `abortTransaction`
discards the pending writes, leaving `base`. -/
structure TxSession where
  base : DbState
  view : DbState
deriving DecidableEq

def startTransaction (st : DbState) : TxSession := { base := st, view := st }

def commitTransaction (s : TxSession) : DbState := s.view

def abortTransaction (s : TxSession) : DbState := s.base

/-- `AuthUser.create([...], { session })`: throws a duplicate-key error
when the unique indexes on `username`/`email` (or `_id`) are violated,
otherwise stages the insert inside the session. -/
def authCreateTx (s : TxSession) (d : AuthDoc) : Except StoreErr TxSession :=
  if s.view.auths.any (fun x => x.id == d.id || x.username == d.username || x.email == d.email)
  then .error .duplicateKey
  else .ok { s with view := { s.view with auths := s.view.auths ++ [d] } }

/-- `User.create([...], { session })`: the `_id` is supplied explicitly
(`auth._id`), so a duplicate `_id` in the profile collection throws. -/
def userCreateTx (s : TxSession) (u : UserDoc) : Except StoreErr TxSession :=
  if s.view.users.any (fun x => x.id == u.id)
  then .error .duplicateKey
  else .ok { s with view := { s.view with users := s.view.users ++ [u] } }

/-- Registration payload handed to `AuthRepository.create` (the
`IAuthEntity` fields `create` reads; `password` is already the hash). -/
structure CreateData where
  username : String
  email : String
  password : String
  role : String
  status : String
  isVerified : Bool
  refreshToken : Option String := none
deriving DecidableEq

/-- The profile document `create` builds for the `User` collection
(`fullName` is the username; everything else fixed defaults). -/
def mkProfileDoc (id fullName : String) : UserDoc :=
  { id := id, fullName := fullName, avatar := none, bio := ""
    socialLinks := { twitter := none, linkedin := none, github := none, website := none }
    followers := [], following := []
    preferences := { emailNotifications := true, marketingUpdates := false, twoFactorAuth := false } }

/-- The credential document `create` inserts: `newId` models the
`ObjectId` mongo generates, `now` the schema timestamps. -/
def mkAuthDoc (data : CreateData) (newId : String) (now : Nat) : AuthDoc :=
  { id := newId, username := data.username, email := data.email
    password := data.password, role := data.role, status := data.status
    isVerified := data.isVerified, refreshToken := data.refreshToken
    createdAt := now, updatedAt := now }

/-- `AuthRepository.create`: start a session and transaction, insert
the credential, insert the linked profile under the same `_id`, then
commit; any thrown error lands in the `catch`, which aborts the
transaction (rolling back the staged writes) and returns `null`. -/
def create (st : DbState) (data : CreateData) (newId : String) (now : Nat) :
    Option IAuthEntity × DbState :=
  let sess := startTransaction st
  match authCreateTx sess (mkAuthDoc data newId now) with
  | .error _ => (none, abortTransaction sess)
  | .ok s1 =>
      match userCreateTx s1 (mkProfileDoc newId data.username) with
      | .error _ => (none, abortTransaction s1)
      | .ok s2 => (some (normalize (mkAuthDoc data newId now).toMongo), commitTransaction s2)

/-- Error kinds surfaced by the controller/service layer (`ApiError`
with an `ErrorCode`, plus the spec taxonomy's `AccountNotFound`). -/
inductive ApiErr where
  | badRequest (msg : String)
  | accountNotFound
deriving DecidableEq

/-- Modelled from the spec: `AuthService.updateAuth` is not under
`src/` (only its caller `AuthController.updateById` is).  Per section
4.5, "updateAccount(id, partialFields): apply a partial field update;
... fails with `AccountNotFound` if `id` does not resolve", it forwards
to `AuthRepository.updateById` and maps the repository's `null` result
to the typed `AccountNotFound` failure. -/
def updateAuthService (docs : List AuthDoc) (id : String) (data : IUpdateAuth) :
    Except ApiErr (IAuthEntity × List AuthDoc) :=
  match updateById docs id data with
  | (none, _) => .error .accountNotFound
  | (some e, docs1) => .ok (e, docs1)

/-- `AuthController.updateById`: requires `req.params.id`; rejects an
empty update body (`!updates || Object.keys(updates).length === 0`)
with the 400 `ApiError "No update data provided"`; otherwise calls the
service. -/
def updateByIdEndpoint (docs : List AuthDoc) (id : Option String) (updates : IUpdateAuth) :
    Except ApiErr (IAuthEntity × List AuthDoc) :=
  match id with
  | none => .error (.badRequest "Auth ID is required")
  | some i =>
      if updates.keyCount == 0 then .error (.badRequest "No update data provided")
      else updateAuthService docs i updates

/-- The `registerUserSchema` username chain: `.nonempty` on the raw
value, then the `.trim()` and `.toLowerCase()` transforms, then
`.min(3)`, `.max(20)` and the `^[a-z0-9_]+$` regex on the transformed
value (zod runs checks and transforms in chain order). -/
def parseRegisterUsername (s : String) : Option String :=
  if s == "" then none
  else
    let t := jsToLower (jsTrim s)
    if t.length < 3 then none
    else if 20 < t.length then none
    else if t.data.all (fun c => c.isLower || c.isDigit || c == '_') then some t
    else none

/-- The `registerUserSchema` email chain: `.nonempty`, then the
`.trim()` transform, then `.email(...)`.  zod's `.email()` format test
is third-party library code, so it is abstracted as the `emailFmt`
parameter; the chain applies no transform after the trim — in
particular no lowercasing. -/
def parseRegisterEmail (emailFmt : String → Bool) (s : String) : Option String :=
  if s == "" then none
  else
    let t := jsTrim s
    if emailFmt t then some t else none

/-- The `registerUserSchema` password chain: `.nonempty`, `.min(8)`,
`.max(64)` and the four character-class regexes; no transforms. -/
def parseRegisterPassword (s : String) : Option String :=
  if s == "" then none
  else if s.length < 8 then none
  else if 64 < s.length then none
  else if !(s.data.any Char.isUpper) then none
  else if !(s.data.any Char.isLower) then none
  else if !(s.data.any Char.isDigit) then none
  else if !(s.data.any (fun c => "@$!%*?&#".data.contains c)) then none
  else some s

structure RegisterInput where
  username : String
  email : String
  password : String
deriving DecidableEq

/-- `registerUserSchema.parse` on `{username, email, password}`. -/
def registerUserSchema (emailFmt : String → Bool) (username email password : String) :
    Option RegisterInput :=
  match parseRegisterUsername username, parseRegisterEmail emailFmt email,
        parseRegisterPassword password with
  | some u, some e, some p => some { username := u, email := e, password := p }
  | _, _, _ => none

/-- A stand-in instance for zod's `.email()` format test, accepting any
string with an `@` — in particular it accepts mixed-case addresses,
which zod's (case-insensitive) email regex also accepts. -/
def emailFmtSample : String → Bool := fun s => s.data.contains '@'

/-! Concrete fixtures used by witnesses and counterexamples. -/

def oid1 : String := "656565656565656565656565"

def oid2 : String := "a1a1a1a1a1a1a1a1a1a1a1a1"

def sampleDoc : AuthDoc :=
  { id := oid1, username := "alice", email := "alice@x.com", password := "hash1"
    role := "standard", status := "active", isVerified := false
    refreshToken := some "tok1", createdAt := 5, updatedAt := 6 }

def sampleDoc2 : AuthDoc :=
  { id := oid2, username := "bob", email := "bob@x.com", password := "hash2"
    role := "admin", status := "active", isVerified := true
    refreshToken := none, createdAt := 9, updatedAt := 9 }

def sampleData : CreateData :=
  { username := "carol", email := "carol@x.com", password := "hash3"
    role := "standard", status := "active", isVerified := false }

def emptySt : DbState := { auths := [], users := [] }

/-- The sorted list of matching documents `findAll` paginates over. -/
def sortedDocs (docs : List AuthDoc) (params : IQueryParams) : List AuthDoc :=
  mongoSort
    (docCmp (sortFieldOf (params.sortBy.getD "createdAt")) ((params.sortOrder.getD "desc") == "asc"))
    (searchFilter (params.search.getD "") docs)

/-! Helper lemmas. -/

/-- The per-document effect of `{ refreshToken: null }` keeps the id. -/
theorem clearTok_id (i : String) (x : AuthDoc) :
    (if x.id == i then { x with refreshToken := none } else x).id = x.id := by
  split <;> rfl

/-- Looking up by id commutes with the token-clearing map. -/
theorem clearTok_find_map (docs : List AuthDoc) (i : String) :
    ((docs.map (fun x => if x.id == i then { x with refreshToken := none } else x)).find?
        (fun x => x.id == i)) =
      (docs.find? (fun x => x.id == i)).map
        (fun x => if x.id == i then { x with refreshToken := none } else x) := by
  rw [List.find?_map]
  have hcomp : ((fun x : AuthDoc => x.id == i) ∘
      (fun x : AuthDoc => if x.id == i then { x with refreshToken := none } else x)) =
      (fun x : AuthDoc => x.id == i) := by
    funext x
    show ((if x.id == i then { x with refreshToken := none } else x).id == i) = (x.id == i)
    rw [clearTok_id]
  rw [hcomp]

/-- Clearing the refresh token twice equals clearing it once, per document. -/
theorem clearTok_idem (i : String) (x : AuthDoc) :
    (fun x => if x.id == i then { x with refreshToken := none } else x)
      ((fun x => if x.id == i then { x with refreshToken := none } else x) x) =
    (fun x => if x.id == i then { x with refreshToken := none } else x) x := by
  by_cases hx : (x.id == i) = true <;> simp [hx]

/-- A successful username parse returns the trimmed, lowercased input. -/
theorem parseRegisterUsername_eq (s t : String) (h : parseRegisterUsername s = some t) :
    t = jsToLower (jsTrim s) := by
  simp only [parseRegisterUsername] at h
  split_ifs at h <;> simp_all

/-- A successful email parse returns the trimmed (not lowercased) input. -/
theorem parseRegisterEmail_eq (fmt : String → Bool) (s t : String)
    (h : parseRegisterEmail fmt s = some t) : t = jsTrim s := by
  simp only [parseRegisterEmail] at h
  split_ifs at h <;> simp_all

/-- A successful password parse returns the input unchanged. -/
theorem parseRegisterPassword_eq (s t : String) (h : parseRegisterPassword s = some t) :
    t = s := by
  simp only [parseRegisterPassword] at h
  split_ifs at h <;> simp_all

/-- `(t + l - 1) / l` is an upper ceiling: `t ≤ ⌈t/l⌉ * l`. -/
theorem le_ceilDiv_mul (t l : Nat) (hl : 1 ≤ l) : t ≤ ((t + l - 1) / l) * l := by
  have hl0 : 0 < l := hl
  rcases Nat.eq_zero_or_pos t with h0 | h1
  · simp [h0]
  · have h2 : t + l - 1 = (t - 1) + l := by omega
    rw [h2, Nat.add_div_right _ hl0]
    have h3 := Nat.div_add_mod (t - 1) l
    have h4 := Nat.mod_lt (t - 1) hl0
    calc t = l * ((t - 1) / l) + ((t - 1) % l) + 1 := by omega
    _ ≤ l * ((t - 1) / l) + l := by omega
    _ = l * ((t - 1) / l + 1) := by rw [Nat.mul_succ]
    _ = ((t - 1) / l + 1) * l := by rw [Nat.mul_comm]

/-- `(t + l - 1) / l` is the least such bound. -/
theorem ceilDiv_le (t l k : Nat) (hl : 1 ≤ l) (hk : t ≤ k * l) : (t + l - 1) / l ≤ k := by
  have hl0 : 0 < l := hl
  have h6 : (t + l - 1) < (k + 1) * l := by
    have h7 : (k + 1) * l = k * l + l := by rw [Nat.succ_mul]
    omega
  have h5 : (t + l - 1) / l < k + 1 := (Nat.div_lt_iff_lt_mul hl0).mpr h6
  omega

/-- The fallback sort field is itself an allowed field. -/
theorem sortFieldOf_createdAt : sortFieldOf "createdAt" = "createdAt" := by decide

/-- A sort field outside the allow-list falls back to `"createdAt"`. -/
theorem sortFieldOf_of_not_allowed (s : String) (h : allowedSortFields.contains s = false) :
    sortFieldOf s = "createdAt" := by
  simp only [sortFieldOf]
  rw [if_neg]
  simp only [h, Bool.false_eq_true, not_false_eq_true]

/-! Claim theorems. -/

/-- Claim C1: `AuthRepository.create` is all-or-nothing.  On success the
credential document and the linked profile document are appended inside
one committed transaction and share the id `newId`; on any failure —
including the profile insert failing after the credential insert
succeeded — the result is `null` and both collections equal their
pre-call state (the aborted session discards the staged writes), so no
partial account is observable. -/
theorem create_atomic (st : DbState) (data : CreateData) (newId : String) (now : Nat) :
    ((create st data newId now).1 = none → (create st data newId now).2 = st) ∧
    (∀ e, (create st data newId now).1 = some e →
      e.id = newId ∧
      (create st data newId now).2.auths = st.auths ++ [mkAuthDoc data newId now] ∧
      (create st data newId now).2.users = st.users ++ [mkProfileDoc newId data.username]) := by
  by_cases h1 : ∃ x ∈ st.auths, (x.id = newId ∨ x.username = data.username) ∨ x.email = data.email
  · simp [create, authCreateTx, startTransaction, abortTransaction, mkAuthDoc, h1]
  · by_cases h2 : ∃ x ∈ st.users, x.id = newId
    · simp [create, authCreateTx, userCreateTx, startTransaction, abortTransaction, mkAuthDoc,
        mkProfileDoc, h1, h2]
    · simp [create, authCreateTx, userCreateTx, startTransaction, abortTransaction,
        commitTransaction, mkAuthDoc, mkProfileDoc, h1, h2, normalize, AuthDoc.toMongo]

/-- Claim C1 witness: a profile-id collision makes the profile insert
fail after the credential insert succeeded, and the state rolls back to
exactly the pre-call state; a clean registration appends both records. -/
theorem create_atomic_witness :
    (create { auths := [], users := [mkProfileDoc oid1 "bob"] } sampleData oid1 7).2 =
      { auths := [], users := [mkProfileDoc oid1 "bob"] } ∧
    (create emptySt sampleData oid1 7).2.auths = [mkAuthDoc sampleData oid1 7] ∧
    (create emptySt sampleData oid1 7).2.users = [mkProfileDoc oid1 "carol"] := by
  refine ⟨(create_atomic _ sampleData oid1 7).1 (by decide), ?_, ?_⟩
  · exact ((create_atomic emptySt sampleData oid1 7).2
      (normalize (mkAuthDoc sampleData oid1 7).toMongo) (by decide)).2.1
  · exact ((create_atomic emptySt sampleData oid1 7).2
      (normalize (mkAuthDoc sampleData oid1 7).toMongo) (by decide)).2.2

/-- Claim C2 counterexample: with one stored account holding a refresh
token, the single element of the default `findAll` page serializes with
a ninth key `"refreshToken"` (value `null`), so its key set is not
exactly the eight claimed account-view fields; and the entity returned
by `AuthRepository.create` — the register result at the repository
boundary — contains the password hash. -/
theorem accountView_fields_cex :
    (findAll (.ok [sampleDoc]) defaultParams).data.map serializedKeys =
      [["id", "username", "email", "role", "status", "isVerified", "refreshToken",
        "createdAt", "updatedAt"]] ∧
    (findAll (.ok [sampleDoc]) defaultParams).data.map serializedKeys ≠ [specAccountViewFields] ∧
    (create emptySt sampleData oid1 7).1.map IAuthEntity.password = some (some "hash3") := by
  decide

/-- Claim C2 (amended): every element of the paginated listing carries
the eight spec fields plus a `refreshToken` key; its `password` is
absent (`undefined`, dropped from JSON) and its `refreshToken` is
`null`, so the hash value and the stored token value never appear in a
listing element.  The entity returned by `create`, in contrast, carries
the password hash and the stored refresh token; excluding them from the
register view is left to the service layer. -/
theorem accountView_fields (st : Except StoreErr (List AuthDoc)) (params : IQueryParams)
    (e : IAuthEntity) (he : e ∈ (findAll st params).data) :
    (e.password = none ∧ e.refreshToken = none ∧
      serializedKeys e = ["id", "username", "email", "role", "status", "isVerified",
        "refreshToken", "createdAt", "updatedAt"]) ∧
    (∀ st1 d i now e1, (create st1 d i now).1 = some e1 →
      e1.password = some d.password ∧ e1.refreshToken = d.refreshToken) := by
  constructor
  · cases st with
    | error err => simp [findAll] at he
    | ok docs =>
        simp only [findAll] at he
        obtain ⟨d, hd, rfl⟩ := List.mem_map.mp he
        refine ⟨rfl, rfl, ?_⟩
        simp [serializedKeys, normalize, AuthDoc.project]
  · intro st1 d i now e1 h
    by_cases h1 : ∃ x ∈ st1.auths, (x.id = i ∨ x.username = d.username) ∨ x.email = d.email
    · simp [create, authCreateTx, startTransaction, abortTransaction, mkAuthDoc, h1] at h
    · by_cases h2 : ∃ x ∈ st1.users, x.id = i
      · simp [create, authCreateTx, userCreateTx, startTransaction, abortTransaction,
          mkAuthDoc, mkProfileDoc, h1, h2] at h
      · simp [create, authCreateTx, userCreateTx, startTransaction, commitTransaction,
          mkAuthDoc, mkProfileDoc, h1, h2, normalize, AuthDoc.toMongo] at h
        subst h
        exact ⟨rfl, rfl⟩

/-- Claim C2 witness: the amended statement evaluated on a concrete
listing element and on a concrete `create` result. -/
theorem accountView_fields_witness :
    (normalize sampleDoc.project).password = none ∧
    (normalize sampleDoc.project).refreshToken = none ∧
    serializedKeys (normalize sampleDoc.project) =
      ["id", "username", "email", "role", "status", "isVerified", "refreshToken",
       "createdAt", "updatedAt"] ∧
    (normalize (mkAuthDoc sampleData oid1 7).toMongo).password = some sampleData.password := by
  have h := accountView_fields (.ok [sampleDoc]) defaultParams (normalize sampleDoc.project)
    (by decide)
  exact ⟨h.1.1, h.1.2.1, h.1.2.2,
    (h.2 emptySt sampleData oid1 7 (normalize (mkAuthDoc sampleData oid1 7).toMongo)
      (by decide)).1⟩

/-- Claim C3 (amended): the repository reports store failures silently,
not as typed errors.  A duplicate username/email/id key violation during
`create` is caught like any other error and collapsed into the same
`null` result (the `Option` return carries no error kind at all), and a
thrown store error inside `findAll` is swallowed into an empty success
page with `total` and `totalPages` 0. -/
theorem storeFailure_silent (st : DbState) (data : CreateData) (newId : String) (now : Nat)
    (hdup : ∃ x ∈ st.auths, (x.id = newId ∨ x.username = data.username) ∨ x.email = data.email) :
    create st data newId now = (none, st) ∧
    (∀ err params, findAll (.error err) params =
      { data := [],
        pagination := { page := params.page.getD 1, limit := params.limit.getD 10,
                        total := 0, totalPages := 0 } }) := by
  constructor
  · simp [create, authCreateTx, startTransaction, abortTransaction, mkAuthDoc, hdup]
  · intro err params
    rfl

/-- Claim C3 counterexample: registering a duplicate username yields the
silent `null` (no distinct duplicate-account kind), and a failing store
makes `findAll` return a silently empty success page — refuting the
claim that store failures always surface as typed failures. -/
theorem storeFailure_silent_cex :
    create { auths := [sampleDoc], users := [] } { sampleData with username := "alice" } oid2 9 =
      (none, { auths := [sampleDoc], users := [] }) ∧
    findAll (.error .unavailable) defaultParams =
      { data := [], pagination := { page := 1, limit := 10, total := 0, totalPages := 0 } } := by
  decide

/-- Claim C3 witness: the amended statement at a concrete duplicate
email and a concrete failing store. -/
theorem storeFailure_silent_witness :
    create { auths := [sampleDoc2], users := [] } { sampleData with email := "bob@x.com" } oid1 3 =
      (none, { auths := [sampleDoc2], users := [] }) ∧
    findAll (.error .duplicateKey) { page := some 2 } =
      { data := [], pagination := { page := 2, limit := 10, total := 0, totalPages := 0 } } := by
  refine ⟨(storeFailure_silent _ _ oid1 3 (by decide)).1, ?_⟩
  exact (storeFailure_silent { auths := [sampleDoc2], users := [] }
    { sampleData with email := "bob@x.com" } oid1 3 (by decide)).2 .duplicateKey { page := some 2 }

/-- Claim C4: logout is idempotent at the store.
`removeRefreshTokenById` succeeds (returns the updated entity, not an
error) on an account whose refresh token is already `null`, and running
the clear twice leaves the stored collection identical to running it
once. -/
theorem logout_idempotent (docs : List AuthDoc) (i : String) :
    (∀ d, docs.find? (fun x => x.id == i) = some d → d.refreshToken = none →
      (removeRefreshTokenById docs i).1.isSome = true) ∧
    (removeRefreshTokenById (removeRefreshTokenById docs i).2 i).2 =
      (removeRefreshTokenById docs i).2 := by
  constructor
  · intro d hd _
    simp [removeRefreshTokenById, hd]
  · cases hfind : docs.find? (fun x => x.id == i) with
    | none => simp [removeRefreshTokenById, hfind]
    | some d =>
        simp only [removeRefreshTokenById, hfind]
        rw [clearTok_find_map, hfind]
        simp only [Option.map_some']
        rw [List.map_map]
        congr 1
        funext x
        exact clearTok_idem i x

/-- Claim C4 witness: clearing the already-`null` token of `sampleDoc2`
succeeds, and a double clear on `sampleDoc` equals a single clear. -/
theorem logout_idempotent_witness :
    (removeRefreshTokenById [sampleDoc2] oid2).1.isSome = true ∧
    (removeRefreshTokenById (removeRefreshTokenById [sampleDoc] oid1).2 oid1).2 =
      (removeRefreshTokenById [sampleDoc] oid1).2 :=
  ⟨(logout_idempotent [sampleDoc2] oid2).1 sampleDoc2 (by decide) (by decide),
   (logout_idempotent [sampleDoc] oid1).2⟩

/-- Claim C5 (amended): for every accepted registration input the
username is normalized to a trimmed, lowercase form, but the email is
only trimmed — `registerUserSchema` applies no lowercasing to it, so its
case is preserved into the stored credential. -/
theorem register_normalization (fmt : String → Bool) (u e p : String) (r : RegisterInput)
    (h : registerUserSchema fmt u e p = some r) :
    r.username = jsToLower (jsTrim u) ∧ r.email = jsTrim e ∧ r.password = p := by
  unfold registerUserSchema at h
  cases hu : parseRegisterUsername u with
  | none => rw [hu] at h; simp at h
  | some u1 =>
      rw [hu] at h
      cases he2 : parseRegisterEmail fmt e with
      | none => rw [he2] at h; simp at h
      | some e1 =>
          rw [he2] at h
          cases hp : parseRegisterPassword p with
          | none => rw [hp] at h; simp at h
          | some p1 =>
              rw [hp] at h
              simp only [Option.some.injEq] at h
              subst h
              exact ⟨parseRegisterUsername_eq u u1 hu, parseRegisterEmail_eq fmt e e1 he2,
                parseRegisterPassword_eq p p1 hp⟩

/-- Claim C5 counterexample: a mixed-case email passes the schema and
comes out trimmed but not lowercased, so the stored email is not in
lowercase form as the claim states. -/
theorem register_normalization_cex :
    registerUserSchema emailFmtSample "Alice_1" " Alice@Example.com " "Passw0rd!" =
      some { username := "alice_1", email := "Alice@Example.com", password := "Passw0rd!" } ∧
    jsToLower "Alice@Example.com" ≠ "Alice@Example.com" := by
  decide

/-- Claim C5 witness: the amended statement at a concrete accepted
registration payload. -/
theorem register_normalization_witness :
    ("bob_2" : String) = jsToLower (jsTrim "Bob_2") ∧
    ("BOB@x.io" : String) = jsTrim " BOB@x.io " ∧ ("Passw0rd!" : String) = "Passw0rd!" :=
  register_normalization emailFmtSample "Bob_2" " BOB@x.io " "Passw0rd!"
    { username := "bob_2", email := "BOB@x.io", password := "Passw0rd!" } (by decide)

/-- Claim C6: for a query with page `p ≥ 1` and limit `l ≥ 1`, `findAll`
echoes `page` and `limit`, reports `total` as the count of matching
records, returns the sorted matches with the first `(p-1)*l` skipped and
at most `l` taken, and `totalPages` is the ceiling of `total / l`
(characterized as the least `k` with `total ≤ k * l`). -/
theorem findAll_pagination (docs : List AuthDoc) (params : IQueryParams) (p l : Nat)
    (hp : params.page = some p) (hl : params.limit = some l) (hp1 : 1 ≤ p) (hl1 : 1 ≤ l) :
    (findAll (.ok docs) params).pagination.page = p ∧
    (findAll (.ok docs) params).pagination.limit = l ∧
    (findAll (.ok docs) params).pagination.total =
      (searchFilter (params.search.getD "") docs).length ∧
    (findAll (.ok docs) params).data =
      (((sortedDocs docs params).drop ((p - 1) * l)).take l).map (fun d => normalize d.project) ∧
    (findAll (.ok docs) params).data.length ≤ l ∧
    (findAll (.ok docs) params).pagination.total ≤
      (findAll (.ok docs) params).pagination.totalPages * l ∧
    (∀ k, (findAll (.ok docs) params).pagination.total ≤ k * l →
      (findAll (.ok docs) params).pagination.totalPages ≤ k) := by
  simp only [findAll, hp, hl, Option.getD_some, sortedDocs]
  refine ⟨trivial, trivial, trivial, trivial, ?_, ?_, ?_⟩
  · rw [List.length_map, List.length_take]
    exact min_le_left _ _
  · exact le_ceilDiv_mul _ l hl1
  · intro k hk
    exact ceilDiv_le _ l k hl1 hk

/-- Claim C6 witness: page 2 with limit 1 over a two-document store. -/
theorem findAll_pagination_witness :
    (findAll (.ok [sampleDoc, sampleDoc2]) { page := some 2, limit := some 1 }).pagination.page = 2 ∧
    (findAll (.ok [sampleDoc, sampleDoc2]) { page := some 2, limit := some 1 }).pagination.limit = 1 ∧
    (findAll (.ok [sampleDoc, sampleDoc2]) { page := some 2, limit := some 1 }).pagination.total =
      (searchFilter "" [sampleDoc, sampleDoc2]).length ∧
    (findAll (.ok [sampleDoc, sampleDoc2]) { page := some 2, limit := some 1 }).data =
      (((sortedDocs [sampleDoc, sampleDoc2] { page := some 2, limit := some 1 }).drop 1).take 1).map
        (fun d => normalize d.project) ∧
    (findAll (.ok [sampleDoc, sampleDoc2]) { page := some 2, limit := some 1 }).data.length ≤ 1 ∧
    (findAll (.ok [sampleDoc, sampleDoc2]) { page := some 2, limit := some 1 }).pagination.totalPages ≤ 2 := by
  have h := findAll_pagination [sampleDoc, sampleDoc2] { page := some 2, limit := some 1 } 2 1
    rfl rfl (by decide) (by decide)
  exact ⟨h.1, h.2.1, h.2.2.1, h.2.2.2.1, h.2.2.2.2.1, h.2.2.2.2.2.2 2 (by decide)⟩

/-- Claim C7: the update pipeline rejects an empty update set with the
no-fields-provided failure (`ApiError "No update data provided"`, the
controller's 400 `BAD_REQUEST`), and a non-empty update for an id that
resolves to no stored account fails with the typed `AccountNotFound`
(the service layer is modelled from the spec, see `updateAuthService`). -/
theorem updateAccount_errors (docs : List AuthDoc) (i : String) (updates : IUpdateAuth) :
    (updates.keyCount = 0 →
      updateByIdEndpoint docs (some i) updates = .error (.badRequest "No update data provided")) ∧
    (updates.keyCount ≠ 0 → docs.find? (fun d => d.id == i) = none →
      updateByIdEndpoint docs (some i) updates = .error .accountNotFound) := by
  constructor
  · intro h
    simp [updateByIdEndpoint, h]
  · intro h hf
    simp [updateByIdEndpoint, h, updateAuthService, updateById, hf]

/-- Claim C7 witness: an empty body against a stored account, and a
provided field against a missing id. -/
theorem updateAccount_errors_witness :
    updateByIdEndpoint [sampleDoc] (some oid1) {} = .error (.badRequest "No update data provided") ∧
    updateByIdEndpoint [sampleDoc] (some oid2) { username := some "zed" } =
      .error .accountNotFound :=
  ⟨(updateAccount_errors [sampleDoc] oid1 {}).1 (by decide),
   (updateAccount_errors [sampleDoc] oid2 { username := some "zed" }).2 (by decide) (by decide)⟩

/-- Claim C8: `findById` is total over arbitrary strings and, for any
input that is not a well-formed ObjectId, returns `null` regardless of
the store contents — the guard fires before any query is issued. -/
theorem findById_invalid (docs : List AuthDoc) (s : String)
    (h : isValidObjectId s = false) : findById docs s = none := by
  simp [findById, h]

/-- Claim C8 witness: `"nope"` is not a valid ObjectId, and `findById`
returns `null` even on a store that contains a document with that very
id — the store is not consulted. -/
theorem findById_invalid_witness :
    isValidObjectId "nope" = false ∧
    findById [⟨"nope", "u", "e", "p", "r", "s", true, some "tok", 0, 0⟩] "nope" = none :=
  ⟨by decide, findById_invalid _ "nope" (by decide)⟩

/-- Claim C9: lookup normalization is asymmetric.  `findByUsername`
trims and lowercases its input before querying, so inputs equal up to
case and surrounding whitespace give identical results; `findByEmail`
queries with the email exactly as given, so when no stored document has
that exact email the lookup misses — even if one matches up to case. -/
theorem lookup_normalization_asymmetry (docs : List AuthDoc) (u v em : String)
    (huv : jsToLower (jsTrim v) = jsToLower (jsTrim u))
    (hem : ∀ d ∈ docs, d.email ≠ em) :
    findByUsername docs v = findByUsername docs u ∧ findByEmail docs em = none := by
  constructor
  · simp only [findByUsername, huv]
  · simp only [findByEmail]
    have hnone : docs.find? (fun d => d.email == em) = none := by
      rw [List.find?_eq_none]
      intro x hx
      simp [hem x hx]
    rw [hnone]
    rfl

/-- Claim C9 witness: `" ALICE "` finds the stored `"alice"` account,
while the email `"Alice@X.com"` — differing from the stored
`"alice@x.com"` only in case — is not found. -/
theorem lookup_normalization_asymmetry_witness :
    findByUsername [sampleDoc] " ALICE " = findByUsername [sampleDoc] "Alice" ∧
    findByEmail [sampleDoc] "Alice@X.com" = none ∧
    findByUsername [sampleDoc] " ALICE " = some (normalize sampleDoc.toMongo) ∧
    jsToLower "Alice@X.com" = jsToLower sampleDoc.email := by
  have h := lookup_normalization_asymmetry [sampleDoc] "Alice" " ALICE " "Alice@X.com"
    (by decide) (by decide)
  exact ⟨h.1, h.2, by decide, by decide⟩

/-- Claim C10: a `sortBy` outside {username, email, createdAt,
updatedAt} makes `findAll` behave exactly as if `sortBy` were
`"createdAt"`, and any `sortOrder` other than `"asc"` behaves exactly as
`"desc"` (descending). -/
theorem sort_fallback (docs : List AuthDoc) (params : IQueryParams) :
    (allowedSortFields.contains (params.sortBy.getD "createdAt") = false →
      findAll (.ok docs) params = findAll (.ok docs) { params with sortBy := some "createdAt" }) ∧
    ((params.sortOrder.getD "desc") ≠ "asc" →
      findAll (.ok docs) params = findAll (.ok docs) { params with sortOrder := some "desc" }) := by
  constructor
  · intro h
    simp only [findAll]
    rw [sortFieldOf_of_not_allowed _ h]
    simp [sortFieldOf_createdAt]
  · intro h
    have hb : ((params.sortOrder.getD "desc") == "asc") = false := beq_eq_false_iff_ne.mpr h
    simp [findAll, hb]

/-- Claim C10 witness: `sortBy = "role"` (not allowed) sorts like
`"createdAt"`, and `sortOrder = "DESC"` sorts like `"desc"`. -/
theorem sort_fallback_witness :
    findAll (.ok [sampleDoc, sampleDoc2]) { sortBy := some "role" } =
      findAll (.ok [sampleDoc, sampleDoc2]) { sortBy := some "createdAt" } ∧
    findAll (.ok [sampleDoc, sampleDoc2]) { sortOrder := some "DESC" } =
      findAll (.ok [sampleDoc, sampleDoc2]) { sortOrder := some "desc" } :=
  ⟨(sort_fallback [sampleDoc, sampleDoc2] { sortBy := some "role" }).1 (by decide),
   (sort_fallback [sampleDoc, sampleDoc2] { sortOrder := some "DESC" }).2 (by decide)⟩

end ApnaAuth
